import Mathlib

/-
Verification of the med-scribe classification frontend.

The definitions below are a shallow embedding of the TypeScript sources under
src/ui/frontend/src (types, classification-service, dataset-service, the
classification store, and the ClassificationOptions component), together with
spec-modelled definitions for the backend scoring / rule-evaluation engine,
which is not part of the shipped sources (only its consumers are).

Numbers: TS `number` is modelled as ℚ for scores and ℤ for integer-valued
configuration; file sizes are ℕ.  None of the verified properties depend on
floating-point rounding.
-/

namespace MedScribe

/- JavaScript string methods, modelled over the character list so that they
   are fully computable by kernel reduction.  `jsTrim` is `String.prototype
   .trim` (strip whitespace from both ends), `jsToLower` is `toLowerCase`,
   `jsEndsWith` is `endsWith`. -/

/-- JS `s.trim()`: drop whitespace from both ends. -/
def jsTrim (s : String) : String :=
  String.mk (((s.data.dropWhile Char.isWhitespace).reverse.dropWhile
    Char.isWhitespace).reverse)

/-- JS `s.toLowerCase()` (on the alphabets appearing in this development). -/
def jsToLower (s : String) : String :=
  String.mk (s.data.map Char.toLower)

/-- JS `s.endsWith(suffix)`. -/
def jsEndsWith (s suffix : String) : Bool :=
  suffix.data.isSuffixOf s.data

/- ======================= Data model =======================
   From src/ui/frontend/src/types/attributes.ts -/

/-- `AttributeRule.operator`: 'AND' | 'OR'. -/
inductive RuleOp
| AND
| OR
deriving DecidableEq

/-- `AttributeCondition` from types/attributes.ts.  The optional free-form
`parameters` record is opaque to all verified logic and is omitted. -/
structure AttributeCondition where
  id : String
  description : String
  type : String
deriving DecidableEq

/-- One entry of `AttributeRule.conditions`:
`(string | AttributeCondition | AttributeRule)`.  A nested `AttributeRule`
is represented by its operator and its own conditions list. -/
inductive RuleCond where
| str : String → RuleCond
| cond : AttributeCondition → RuleCond
| rule : RuleOp → List RuleCond → RuleCond

/-- `AttributeRule` from types/attributes.ts. -/
structure AttributeRule where
  operator : RuleOp
  conditions : List RuleCond

/-- `EvaluationTreeNode.type`: 'condition' | 'AND' | 'OR'. -/
inductive NodeType
| condition
| AND
| OR
deriving DecidableEq

/-- Node type tag corresponding to a rule operator. -/
def opNodeType : RuleOp → NodeType
| .AND => .AND
| .OR => .OR

/-- `EvaluationTreeNode` from types/attributes.ts: the result of evaluating a
rule tree against one document.  `satisfied = none` models `null`
("not yet evaluated", e.g. short-circuited, or an errored leaf). -/
structure EvaluationTreeNode where
  type : NodeType
  satisfied : Option Bool
  condition : Option String
  children : List EvaluationTreeNode
  skipped : Bool
  error : Option String

/- ======================= Rule validation =======================
   From DatasetService.validateAttributeRule / validateAttributeCondition in
   src/ui/frontend/src/services/dataset-service.ts.  The TS operator check
   (`!['AND','OR'].includes(rule.operator)`) cannot fire in this embedding
   because `RuleOp` is a closed enum; all other checks are modelled. -/

/-- Errors from `DatasetService.validateAttributeCondition`, in push order. -/
def validateAttributeConditionErrors (c : AttributeCondition) : List String :=
  (if jsTrim c.id = "" then ["Condition ID is required"] else []) ++
  (if jsTrim c.description = "" then ["Condition description is required"] else []) ++
  (if c.type = "text_match" ∨ c.type = "numeric_range" ∨ c.type = "boolean" ∨ c.type = "custom"
    then [] else ["Condition type must be one of: text_match, numeric_range, boolean, custom"]) ++
  (if c.description ≠ "" ∧ 200 < c.description.length
    then ["Condition description must be less than 200 characters"] else [])

mutual

/-- Errors pushed by the `rule.conditions.forEach` loop of
`DatasetService.validateAttributeRule`, starting from index `i`. -/
def condsErrors : Nat → List RuleCond → List String
| _, [] => []
| i, c :: rest => condErrors i c ++ condsErrors (i + 1) rest

/-- Errors contributed by the condition at index `i` in the `forEach` loop of
`DatasetService.validateAttributeRule`. -/
def condErrors : Nat → RuleCond → List String
| i, .str s =>
  if jsTrim s = "" then ["Condition " ++ toString (i + 1) ++ ": Cannot be empty"] else []
| i, .cond c =>
  let ce := validateAttributeConditionErrors c
  if ce.isEmpty then []
  else ["Condition " ++ toString (i + 1) ++ ": " ++ String.intercalate ", " ce]
| i, .rule _op cs =>
  let ne :=
    (if cs.isEmpty then ["Rule must have at least one condition"] else []) ++
    condsErrors 0 cs
  if ne.isEmpty then []
  else ["Nested rule " ++ toString (i + 1) ++ ": " ++ String.intercalate ", " ne]

end

/-- `DatasetService.validateAttributeRule`: returns
`(isValid, errors)` with `isValid = errors.isEmpty`. -/
def validateAttributeRule (r : AttributeRule) : Bool × List String :=
  let errors :=
    (if r.conditions.isEmpty then ["Rule must have at least one condition"] else []) ++
    condsErrors 0 r.conditions
  (errors.isEmpty, errors)

/- ======================= Rule-tree evaluator =======================
   Modelled from the spec: the RuleTree evaluator (spec §4.1) runs in the
   Python backend, which is not among the shipped sources; only its result
   type (EvaluationTreeNode) and its renderer (AttributeEvaluationTree) are.
   The definitions below follow the spec's words: leaves are judged by the
   ConditionOracle; AND short-circuits on the first false child and OR on the
   first true child; short-circuited children appear in the tree marked
   `skipped = true`, `satisfied = null`, and are never sent to the oracle;
   an errored leaf is fail-closed; an empty conditions list evaluates to
   `satisfied = false` with an explanatory error. -/

/-- ConditionOracle outcome for one leaf (spec §6): a boolean judgment, or an
infrastructure failure carrying a message. -/
inductive Judgment
| ok (satisfied : Bool)
| err (msg : String)

/-- Modelled from the spec: leaf evaluation.  The oracle is consulted (the
description is recorded in the call log); on success `satisfied` is the
verdict, on failure `satisfied = null` with the error attached. -/
def evalLeaf (oracle : String → Judgment) (s : String) : EvaluationTreeNode × List String :=
  match oracle s with
  | .ok b => (⟨.condition, some b, some s, [], false, none⟩, [s])
  | .err m => (⟨.condition, none, some s, [], false, some m⟩, [s])

mutual

/-- Modelled from the spec: the result subtree for a child pruned by
short-circuiting — same shape, `skipped = true`, `satisfied = null`,
no oracle calls. -/
def skippedTree : RuleCond → EvaluationTreeNode
| .str s => ⟨.condition, none, some s, [], true, none⟩
| .cond c => ⟨.condition, none, some c.description, [], true, none⟩
| .rule op cs => ⟨opNodeType op, none, none, skippedTrees cs, true, none⟩

/-- Modelled from the spec: `skippedTree` mapped over a children list. -/
def skippedTrees : List RuleCond → List EvaluationTreeNode
| [] => []
| c :: cs => skippedTree c :: skippedTrees cs

end

mutual

/-- Modelled from the spec: `evaluate(rule, document)` of §4.1 with the
document fixed inside `oracle`.  Returns the evaluation tree and the list of
descriptions sent to the ConditionOracle, in call order. -/
def evalRule (oracle : String → Judgment) : RuleCond → EvaluationTreeNode × List String
| .str s => evalLeaf oracle s
| .cond c => evalLeaf oracle c.description
| .rule op cs =>
  if cs.isEmpty then
    (⟨opNodeType op, some false, none, [], false,
      some "Rule must have at least one condition"⟩, [])
  else
    let r := evalChildren oracle op cs false
    let sat :=
      match op with
      | .AND => r.1.all (fun k => k.satisfied == some true)
      | .OR => r.1.any (fun k => k.satisfied == some true)
    (⟨opNodeType op, some sat, none, r.1, false, none⟩, r.2)

/-- Modelled from the spec: evaluate children in declared order, threading the
short-circuit flag.  Once the flag is set, remaining children become skipped
subtrees and contribute no oracle calls; otherwise each child is evaluated and
the flag is set when an AND child comes back `satisfied = false` (resp. an OR
child `satisfied = true`). -/
def evalChildren (oracle : String → Judgment) (op : RuleOp) :
    List RuleCond → Bool → List EvaluationTreeNode × List String
| [], _ => ([], [])
| c :: cs, true =>
  (skippedTree c :: (evalChildren oracle op cs true).1, (evalChildren oracle op cs true).2)
| c :: cs, false =>
  let r := evalRule oracle c
  let sc :=
    match op with
    | .AND => r.1.satisfied == some false
    | .OR => r.1.satisfied == some true
  let rest := evalChildren oracle op cs sc
  (r.1 :: rest.1, r.2 ++ rest.2)

end

/-- Modelled from the spec: evaluation at the `AttributeRule` root. -/
def evalAttributeRule (oracle : String → Judgment) (r : AttributeRule) :
    EvaluationTreeNode × List String :=
  evalRule oracle (.rule r.operator r.conditions)

/- ======================= Score aggregation =======================
   Modelled from the spec: the ScoreAggregator (spec §4.2) also runs in the
   backend and is absent from the shipped sources.  The definitions follow
   the spec's words: with reranking off `effective = similarity`; with
   reranking on, a returned rerank score supersedes similarity and an omitted
   candidate falls back to similarity; the attribute score is binary from the
   root `satisfied` flag; attribute validation is computed only for the
   already-selected primary candidate and does not change the prediction. -/

/-- `ClassDefinition` / ClassDescriptor identity: `{ id, name, description }`. -/
structure ClassDescriptor where
  id : String
  name : String
  description : String
deriving DecidableEq

/-- Modelled from the spec: one retrieval candidate with its raw similarity
score and the reranker's opinion, `none` when the reranker omitted it. -/
structure SimCandidate where
  cls : ClassDescriptor
  similarity : ℚ
  rerank : Option ℚ

/-- Modelled from the spec (§4.2): the effective score of one candidate. -/
def effectiveScore (useReranking : Bool) (similarity : ℚ) (rerank : Option ℚ) : ℚ :=
  if useReranking then
    match rerank with
    | some r => r
    | none => similarity
  else similarity

/-- Modelled from the spec: effective score of a candidate record. -/
def candEffective (useReranking : Bool) (c : SimCandidate) : ℚ :=
  effectiveScore useReranking c.similarity c.rerank

/-- Modelled from the spec: select the maximum-effective candidate with a
stable tie-break by original similarity rank (an earlier candidate wins ties). -/
def pickBest (useReranking : Bool) : List SimCandidate → Option SimCandidate
| [] => none
| c :: cs =>
  some (cs.foldl
    (fun best d => if candEffective useReranking best < candEffective useReranking d then d else best)
    c)

/-- Modelled from the spec (§4.2): the binary attribute score — 1.0 when the
root of the evaluation tree is satisfied, 0.0 otherwise. -/
def attributeScore (root : EvaluationTreeNode) : ℚ :=
  if root.satisfied = some true then 1 else 0

/-- Modelled from the spec: the ranking-relevant part of a pipeline result —
the predicted class, its effective score, and (when requested and a rule
exists for the class) the attribute score of its evaluation tree. -/
structure PipelineOutput where
  predicted : ClassDescriptor
  effective : ℚ
  attributeResult : Option ℚ

/-- Modelled from the spec (§4.2, §4.3): pick the primary candidate by
effective score, then — only when attribute validation is requested and a
rule is attached to the predicted class — evaluate that rule and report the
binary attribute score alongside the prediction. -/
def runPipeline (useReranking useAttributeValidation : Bool) (oracle : String → Judgment)
    (rules : String → Option AttributeRule) (cands : List SimCandidate) :
    Option PipelineOutput :=
  match pickBest useReranking cands with
  | none => none
  | some best =>
    some ⟨best.cls, candEffective useReranking best,
      if useAttributeValidation then
        (rules best.cls.id).map (fun r => attributeScore (evalAttributeRule oracle r).1)
      else none⟩

/- ======================= Classification service =======================
   From src/ui/frontend/src/types/classification.ts, types/api.ts and
   src/ui/frontend/src/services/classification-service.ts. -/

/-- `ClassificationConfig` from types/classification.ts.  The opaque
`rerankingParams` record is omitted. -/
structure ClassificationConfig where
  useReranking : Bool
  rerankingModel : Option String
  useAttributeValidation : Bool
  topKCandidates : ℤ

/-- `ClassifyTextRequest` from types/classification.ts. -/
structure ClassifyTextRequest where
  text : String
  datasetId : String
  config : ClassificationConfig

/-- The `File` fields consulted by `validatePDFFile`: name and byte size. -/
structure PDFFile where
  name : String
  size : Nat
deriving DecidableEq

/-- `ClassifyPDFRequest` from types/classification.ts; `file = none` models a
missing (`undefined`/`null`) file, which the `!file` check rejects. -/
structure ClassifyPDFRequest where
  file : Option PDFFile
  datasetId : String
  config : ClassificationConfig

/-- The validation errors thrown by `ErrorHandler.createValidationError`:
message and offending field. -/
structure ValidationError where
  message : String
  field : String
deriving DecidableEq

/-- `ClassificationService.validateTextRequest`: the first failing check
throws; `none` means the request passed validation.  The `!request.config`
check cannot fire here because `config` is a required field of the typed
request. -/
def validateTextRequest (req : ClassifyTextRequest) : Option ValidationError :=
  if jsTrim req.text = "" then
    some ⟨"Text content is required", "text"⟩
  else if jsTrim req.datasetId = "" then
    some ⟨"Dataset ID is required", "datasetId"⟩
  else if req.config.topKCandidates < 1 ∨ 100 < req.config.topKCandidates then
    some ⟨"Top K candidates must be between 1 and 100", "config.topKCandidates"⟩
  else none

/-- `ClassificationService.validatePDFFile`: missing file, non-`.pdf`
filename (case-insensitive), size above the 50MB limit, and empty file, in
that order. -/
def validatePDFFile (file : Option PDFFile) : Option ValidationError :=
  match file with
  | none => some ⟨"PDF file is required", "file"⟩
  | some f =>
    if ¬ (jsEndsWith (jsToLower f.name) ".pdf") then
      some ⟨"Only PDF files are supported", "file"⟩
    else if 50 * 1024 * 1024 < f.size then
      some ⟨"PDF file size must be less than 50MB", "file"⟩
    else if f.size = 0 then
      some ⟨"PDF file cannot be empty", "file"⟩
    else none

/-- `ClassificationService.validatePDFRequest`: file checks first, then the
dataset id; the `!request.config` check cannot fire in the typed embedding.
Note: unlike `validateTextRequest`, there is no `topKCandidates` range check. -/
def validatePDFRequest (req : ClassifyPDFRequest) : Option ValidationError :=
  match validatePDFFile req.file with
  | some e => some e
  | none =>
    if jsTrim req.datasetId = "" then
      some ⟨"Dataset ID is required", "datasetId"⟩
    else none

/-- `ApiError` from types/api.ts (the optional `code` is omitted). -/
structure ApiError where
  type : String
  message : String
  details : Option String
  recoverable : Bool
  suggestedAction : Option String
deriving DecidableEq

/-- `ApiResponse<T>` from types/api.ts.  The wall-clock `timestamp` string is
outside the model. -/
structure ApiResponse (α : Type) where
  success : Bool
  data : Option α
  error : Option ApiError

/-- The fields of the backend's `attribute_validation` object read by the
response transformation. -/
structure BackendAttributeValidation where
  conditions_met : Option (List String)
  conditions_not_met : Option (List String)
  overall_score : Option ℚ
  evaluation_tree : Option EvaluationTreeNode

/-- The fields of one entry of the backend's `alternatives` array read by the
response transformation. -/
structure BackendAlternative where
  name : String
  description : Option String
  effective_score : Option ℚ
  similarity_score : Option ℚ
  rerank_score : Option ℚ
  attribute_score : Option ℚ

/-- The backend classification payload fields read by the response
transformation in `classifyText` / `classifyPDF`.  A field is `none` when the
backend omitted it (`undefined`). -/
structure BackendResult where
  predicted_name : String
  predicted_description : String
  effective_score : Option ℚ
  similarity_score : Option ℚ
  rerank_score : Option ℚ
  attribute_score : Option ℚ
  attribute_validation : Option BackendAttributeValidation
  alternatives : Option (List BackendAlternative)
  processing_time : Option ℚ

/-- JavaScript `a || b` on an optionally-present number: falls through to `b`
when `a` is absent or equal to `0` (the number `0` is falsy). -/
def jsOrQ (a : Option ℚ) (b : ℚ) : ℚ :=
  match a with
  | none => b
  | some x => if x = 0 then b else x

/-- JavaScript `a || b` on an optionally-present array: falls through only
when `a` is absent (an array is always truthy). -/
def jsOrList (a : Option (List String)) (b : List String) : List String :=
  match a with
  | none => b
  | some xs => xs

/-- `name.toLowerCase().replace(/\s+/g, '_')` on the character list: each
maximal whitespace run becomes a single underscore.  The flag records whether
the previous character was part of a whitespace run. -/
def collapseWhitespace : Bool → List Char → List Char
| _, [] => []
| prevWs, c :: cs =>
  if c.isWhitespace then
    if prevWs then collapseWhitespace true cs
    else '_' :: collapseWhitespace true cs
  else c :: collapseWhitespace false cs

/-- The id derivation `name.toLowerCase().replace(/\s+/g, '_')` used by the
response transformation. -/
def jsNameToId (name : String) : String :=
  String.mk (collapseWhitespace false (jsToLower name).data)

/-- `ClassificationScores` from types/classification.ts (`attribute` is a
Lean keyword, so that field is called `attributeScore` here). -/
structure ClassificationScores where
  similarity : ℚ
  rerank : Option ℚ
  attributeScore : Option ℚ

/-- `ClassificationAlternative` from types/classification.ts. -/
structure ClassificationAlternative where
  cls : ClassDescriptor
  confidence : ℚ
  scores : ClassificationScores

/-- `AttributeValidationResult` from types/attributes.ts (the opaque
`details` record is omitted). -/
structure AttributeValidationResult where
  conditionsMet : List String
  conditionsNotMet : List String
  overallScore : ℚ
  evaluationTree : Option EvaluationTreeNode

/-- `ClassificationResult` from types/classification.ts (the opaque
`metadata` record is omitted). -/
structure ClassificationResult where
  predictedClass : ClassDescriptor
  confidence : ℚ
  similarityScore : ℚ
  rerankScore : Option ℚ
  attributeScore : Option ℚ
  alternatives : List ClassificationAlternative
  attributeValidation : Option AttributeValidationResult
  processingTime : Option ℚ

/-- The per-alternative transformation inside `classifyText` / `classifyPDF`. -/
def transformAlternative (alt : BackendAlternative) : ClassificationAlternative :=
  { cls :=
      { id := jsNameToId alt.name
        name := alt.name
        description := alt.description.getD "Alternative classification" }
    confidence := jsOrQ alt.effective_score (jsOrQ alt.similarity_score 0)
    scores :=
      { similarity := jsOrQ alt.similarity_score 0
        rerank := alt.rerank_score
        attributeScore := alt.attribute_score } }

/-- The backend-to-frontend response transformation shared by
`ClassificationService.classifyText` and `ClassificationService.classifyPDF`. -/
def transformBackendResult (br : BackendResult) : ClassificationResult :=
  { predictedClass :=
      { id := jsNameToId br.predicted_name
        name := br.predicted_name
        description := br.predicted_description }
    confidence := jsOrQ br.effective_score (jsOrQ br.similarity_score 0)
    similarityScore := jsOrQ br.similarity_score 0
    rerankScore := br.rerank_score
    attributeScore := br.attribute_score
    attributeValidation :=
      br.attribute_validation.map (fun av =>
        { conditionsMet := jsOrList av.conditions_met []
          conditionsNotMet := jsOrList av.conditions_not_met []
          overallScore := jsOrQ av.overall_score 0
          evaluationTree := av.evaluation_tree })
    alternatives := (br.alternatives.getD []).map transformAlternative
    processingTime := br.processing_time }

/-- The backend's reply to the HTTP call issued by the service: either a
failed `ApiResponse` (passed through) or a successful payload. -/
inductive BackendReply
| failure (e : ApiError)
| success (br : BackendResult)

/-- The failure response built in the `catch` block of `classifyText` /
`classifyPDF`.  `ErrorHandler.fromUnknown` receives the thrown validation
error, which is a plain object (not an `Error` instance), so its message
becomes the generic 'An unexpected error occurred'. -/
def catchResponse (message suggestedAction : String) : ApiResponse ClassificationResult :=
  { success := false
    data := none
    error := some
      { type := "processing"
        message := message
        details := some "An unexpected error occurred"
        recoverable := true
        suggestedAction := some suggestedAction } }

/-- `ClassificationService.classifyText` as a function of the request and the
backend's reply: a validation failure is caught and returned as a failed
response before any backend call; a failed backend response is passed
through; a successful payload is transformed. -/
def classifyText (req : ClassifyTextRequest) (reply : BackendReply) :
    ApiResponse ClassificationResult :=
  match validateTextRequest req with
  | some _ => catchResponse "Classification failed" "Please check your input and try again."
  | none =>
    match reply with
    | .failure e => ⟨false, none, some e⟩
    | .success br => ⟨true, some (transformBackendResult br), none⟩

/-- Whether `classifyText` reaches the `apiClient.post` call: exactly when
request validation passes. -/
def classifyTextCallsBackend (req : ClassifyTextRequest) : Bool :=
  (validateTextRequest req).isNone

/-- `ClassificationService.classifyPDF` as a function of the request and the
backend's reply (same structure as `classifyText`, with the PDF validator and
PDF-specific catch messages). -/
def classifyPDF (req : ClassifyPDFRequest) (reply : BackendReply) :
    ApiResponse ClassificationResult :=
  match validatePDFRequest req with
  | some _ => catchResponse "PDF classification failed" "Please check your PDF file and try again."
  | none =>
    match reply with
    | .failure e => ⟨false, none, some e⟩
    | .success br => ⟨true, some (transformBackendResult br), none⟩

/-- Whether `classifyPDF` reaches the `apiClient.uploadFile` call: exactly
when request validation passes. -/
def classifyPDFCallsBackend (req : ClassifyPDFRequest) : Bool :=
  (validatePDFRequest req).isNone

/- ======================= Classification store =======================
   From src/ui/frontend/src/stores/classification-store.ts. -/

/-- The classification store state fields touched by the modelled actions
(`error` stands for the store's `AppError`; the PDF extraction side-state is
orthogonal and omitted). -/
structure ClassificationStoreState where
  currentResult : Option ClassificationResult
  resultHistory : List ClassificationResult
  config : ClassificationConfig
  isClassifying : Bool
  error : Option ApiError

/-- `defaultConfig` from classification-store.ts. -/
def defaultConfig : ClassificationConfig :=
  { useReranking := false
    rerankingModel := some "us.amazon.nova-lite-v1:0"
    useAttributeValidation := false
    topKCandidates := 5 }

/-- The store's initial state. -/
def initialStoreState : ClassificationStoreState :=
  { currentResult := none
    resultHistory := []
    config := defaultConfig
    isClassifying := false
    error := none }

/-- `addToHistory`: prepend the result and keep the last 50. -/
def addToHistory (r : ClassificationResult) (s : ClassificationStoreState) :
    ClassificationStoreState :=
  { s with resultHistory := (r :: s.resultHistory).take 50 }

/-- The store's `classifyText` action on the success path: mark classifying
and clear the error, then on success set `currentResult`, clear
`isClassifying`, and add the result to the history. -/
def storeClassifySuccess (r : ClassificationResult) (s : ClassificationStoreState) :
    ClassificationStoreState :=
  let s1 := { s with isClassifying := true, error := none }
  let s2 := { s1 with currentResult := some r, isClassifying := false }
  addToHistory r s2

/-- `clearHistory` from classification-store.ts. -/
def clearHistory (s : ClassificationStoreState) : ClassificationStoreState :=
  { s with resultHistory := [] }

/- ======================= ClassificationOptions =======================
   From the ClassificationOptions component (handleTopKChange). -/

/-- `handleTopKChange`: the new configuration stored by the options control
for a slider value — `Math.max(1, Math.min(20, value))`. -/
def handleTopKChange (config : ClassificationConfig) (value : ℤ) : ClassificationConfig :=
  { config with topKCandidates := max 1 (min 20 value) }

/- ======================= Helper lemmas ======================= -/

/-- A skipped subtree root is marked `skipped = true`. -/
theorem skippedTree_skipped (c : RuleCond) : (skippedTree c).skipped = true := by
  cases c <;> rfl

/-- A skipped subtree root has `satisfied = null`. -/
theorem skippedTree_satisfied (c : RuleCond) : (skippedTree c).satisfied = none := by
  cases c <;> rfl

/-- Once the short-circuit flag is set, every remaining child becomes a
skipped subtree and no oracle call is made. -/
theorem evalChildren_shortCircuited (oracle : String → Judgment) (op : RuleOp)
    (cs : List RuleCond) :
    evalChildren oracle op cs true = (cs.map skippedTree, []) := by
  induction cs with
  | nil => rfl
  | cons c cs ih => simp [evalChildren, ih]

/-- Unfolding of `evalChildren` for an AND node when the head child does not
come back false: the flag stays clear and the tail is processed. -/
theorem evalChildren_and_cons_ne (oracle : String → Judgment) (d : RuleCond)
    (cs : List RuleCond) (hd : (evalRule oracle d).1.satisfied ≠ some false) :
    evalChildren oracle .AND (d :: cs) false =
      ((evalRule oracle d).1 :: (evalChildren oracle .AND cs false).1,
       (evalRule oracle d).2 ++ (evalChildren oracle .AND cs false).2) := by
  have hsc : ((evalRule oracle d).1.satisfied == some false) = false := by
    simpa using hd
  simp [evalChildren, hsc]

/-- The AND children fold, around the first child that evaluates false: the
children before it are evaluated, it is evaluated, everything after it is a
skipped subtree, and the oracle call log stops with its calls. -/
theorem evalChildren_and_shortCircuit (oracle : String → Judgment)
    (pre : List RuleCond) (c : RuleCond) (post : List RuleCond)
    (hpre : ∀ d ∈ pre, (evalRule oracle d).1.satisfied ≠ some false)
    (hc : (evalRule oracle c).1.satisfied = some false) :
    evalChildren oracle .AND (pre ++ c :: post) false =
      (pre.map (fun d => (evalRule oracle d).1) ++
        (evalRule oracle c).1 :: post.map skippedTree,
       (pre.map (fun d => (evalRule oracle d).2)).flatten ++ (evalRule oracle c).2) := by
  induction pre with
  | nil =>
    have hsc : ((evalRule oracle c).1.satisfied == some false) = true := by
      simp [hc]
    simp [evalChildren, hsc, evalChildren_shortCircuited]
  | cons d pre ih =>
    have hd : (evalRule oracle d).1.satisfied ≠ some false :=
      hpre d (List.mem_cons_self d pre)
    have htail : ∀ e ∈ pre, (evalRule oracle e).1.satisfied ≠ some false :=
      fun e he => hpre e (List.mem_cons_of_mem d he)
    rw [List.cons_append, evalChildren_and_cons_ne oracle d _ hd, ih htail]
    simp

/-- A concrete oracle for the witness scenario `AND[c1=false, c2, c3]`:
judges condition "c1" false and everything else true. -/
def andOracle : String → Judgment :=
  fun s => if s = "c1" then .ok false else .ok true

/- ======================= Claims ======================= -/

/-- Claim C1: with `useReranking = false` every candidate's effective score is
its similarity score; with `useReranking = true` a candidate with a reranker
score gets exactly that score (independently of its similarity), and a
candidate the reranker omitted falls back to its similarity score.
(Spec-modelled: the ScoreAggregator runs in the backend, absent from the
shipped sources.) -/
theorem effective_score_rules :
    (∀ c : SimCandidate, candEffective false c = c.similarity) ∧
    (∀ (s : ℚ) (r : Option ℚ), effectiveScore false s r = s) ∧
    (∀ (s r : ℚ), effectiveScore true s (some r) = r) ∧
    (∀ s : ℚ, effectiveScore true s none = s) :=
  ⟨fun _ => rfl, fun _ _ => rfl, fun _ _ => rfl, fun _ => rfl⟩

/-- Claim C2: evaluating an AND node whose children are `pre ++ c :: post`,
where no child of `pre` evaluates false and `c` evaluates false, produces a
node with `satisfied = false` whose children are the in-order evaluations of
`pre`, the evaluation of `c`, and a skipped subtree for every member of
`post` (each marked `skipped = true`, `satisfied = null`); the oracle receives
exactly the calls from `pre` and `c` and none from `post`.
(Spec-modelled: the RuleTree evaluator runs in the backend, absent from the
shipped sources.) -/
theorem and_short_circuit_evaluation (oracle : String → Judgment)
    (pre : List RuleCond) (c : RuleCond) (post : List RuleCond)
    (hpre : ∀ d ∈ pre, (evalRule oracle d).1.satisfied ≠ some false)
    (hc : (evalRule oracle c).1.satisfied = some false) :
    (evalRule oracle (.rule .AND (pre ++ c :: post))).1.satisfied = some false ∧
    (evalRule oracle (.rule .AND (pre ++ c :: post))).1.children =
      pre.map (fun d => (evalRule oracle d).1) ++
        (evalRule oracle c).1 :: post.map skippedTree ∧
    (evalRule oracle (.rule .AND (pre ++ c :: post))).2 =
      (pre.map (fun d => (evalRule oracle d).2)).flatten ++ (evalRule oracle c).2 ∧
    (∀ d ∈ post, (skippedTree d).skipped = true ∧ (skippedTree d).satisfied = none) := by
  have hne : (pre ++ c :: post).isEmpty = false := by
    simp [List.isEmpty_eq_false_iff_exists_mem]
  have hfold := evalChildren_and_shortCircuit oracle pre c post hpre hc
  have hall :
      ((pre.map (fun d => (evalRule oracle d).1) ++
          (evalRule oracle c).1 :: post.map skippedTree).all
        (fun k => k.satisfied == some true)) = false := by
    apply List.all_eq_false.mpr
    refine ⟨(evalRule oracle c).1, by simp, by simp [hc]⟩
  refine ⟨?_, ?_, ?_, fun d _ => ⟨skippedTree_skipped d, skippedTree_satisfied d⟩⟩
  · simp [evalRule, hne, hfold, hall]
  · simp [evalRule, hne, hfold]
  · simp [evalRule, hne, hfold]

/-- Claim C2 witness: for `AND[c1=false, c2, c3]` the root is unsatisfied, the
oracle is called exactly once (for "c1"), and the evaluations of c2 and c3
appear in the tree as skipped nodes with `satisfied = null`. -/
theorem and_short_circuit_evaluation_witness :
    (evalRule andOracle (.rule .AND [.str "c1", .str "c2", .str "c3"])).1.satisfied =
        some false ∧
    (evalRule andOracle (.rule .AND [.str "c1", .str "c2", .str "c3"])).2 = ["c1"] ∧
    (evalRule andOracle (.rule .AND [.str "c1", .str "c2", .str "c3"])).1.children.map
        (fun k => (k.skipped, k.satisfied)) =
      [(false, some false), (true, none), (true, none)] := by
  have h := and_short_circuit_evaluation andOracle [] (.str "c1") [.str "c2", .str "c3"]
    (fun d hd => absurd hd (List.not_mem_nil d)) rfl
  exact ⟨h.1, rfl, rfl⟩

/-- Claim C3: a rule node with an empty conditions list is invalid input —
`validateAttributeRule` reports it invalid with the error 'Rule must have at
least one condition', and (spec-modelled backend evaluator) evaluating
`AND[]` or `OR[]` yields `satisfied = false` with an explanatory error,
never vacuously true. -/
theorem empty_rule_rejected (op : RuleOp) (oracle : String → Judgment) :
    validateAttributeRule ⟨op, []⟩ =
      (false, ["Rule must have at least one condition"]) ∧
    (evalAttributeRule oracle ⟨op, []⟩).1.satisfied = some false ∧
    (evalAttributeRule oracle ⟨op, []⟩).1.error =
      some "Rule must have at least one condition" := by
  refine ⟨?_, ?_, ?_⟩ <;> cases op <;> rfl

/-- Claim C4: the attribute score is exactly binary — 1.0 when the root of
the evaluation tree is satisfied and 0.0 otherwise — and turning attribute
validation on or off never changes which class the pipeline predicts.
(Spec-modelled: attribute scoring and prediction run in the backend, absent
from the shipped sources.) -/
theorem attribute_score_binary :
    (∀ root : EvaluationTreeNode, attributeScore root = 1 ∨ attributeScore root = 0) ∧
    (∀ root : EvaluationTreeNode, attributeScore root = 1 ↔ root.satisfied = some true) ∧
    (∀ (useR : Bool) (oracle : String → Judgment)
        (rules : String → Option AttributeRule) (cands : List SimCandidate),
      (runPipeline useR true oracle rules cands).map PipelineOutput.predicted =
        (runPipeline useR false oracle rules cands).map PipelineOutput.predicted) := by
  refine ⟨?_, ?_, ?_⟩
  · intro root
    unfold attributeScore
    split
    · exact Or.inl rfl
    · exact Or.inr rfl
  · intro root
    unfold attributeScore
    split
    · next h => simp [h]
    · next h => simpa using h
  · intro useR oracle rules cands
    unfold runPipeline
    cases pickBest useR cands <;> rfl

/- Concrete sample inputs used by counterexamples and witnesses. -/

/-- A backend payload with a zero effective score and nonzero similarity. -/
def brSample : BackendResult :=
  { predicted_name := "Invoice"
    predicted_description := "an invoice"
    effective_score := some 0
    similarity_score := some (21 / 50)
    rerank_score := none
    attribute_score := none
    attribute_validation := none
    alternatives := none
    processing_time := none }

/-- A classification configuration whose `topKCandidates` is below the
accepted range. -/
def badTopKConfig : ClassificationConfig :=
  { useReranking := false
    rerankingModel := none
    useAttributeValidation := false
    topKCandidates := 0 }

/-- A PDF request with a perfectly valid file and dataset id but an invalid
`topKCandidates` of 0. -/
def pdfReqBadTopK : ClassifyPDFRequest :=
  { file := some ⟨"doc.pdf", 1024⟩
    datasetId := "ds"
    config := badTopKConfig }

/-- A text request with valid text and dataset id but `topKCandidates = 0`. -/
def textReqBadTopK : ClassifyTextRequest :=
  { text := "hello", datasetId := "ds", config := badTopKConfig }

/-- A fully valid text request. -/
def textReqValid : ClassifyTextRequest :=
  { text := "hello"
    datasetId := "ds"
    config := { useReranking := false, rerankingModel := none
                useAttributeValidation := false, topKCandidates := 5 } }

/-- A text request whose text is whitespace-only. -/
def textReqBlank : ClassifyTextRequest :=
  { text := "   ", datasetId := "ds", config := defaultConfig }

/-- A PDF request with no file attached. -/
def pdfReqNoFile : ClassifyPDFRequest :=
  { file := none, datasetId := "ds", config := defaultConfig }

/-- Claim C5 counterexample: a PDF classification request whose
`topKCandidates` is 0 — outside [1,100] — passes `validatePDFRequest`
(which, unlike `validateTextRequest`, has no range check), so `classifyPDF`
is not rejected: it issues the backend call and returns a successful
classification result. -/
theorem pdf_topk_not_validated :
    pdfReqBadTopK.config.topKCandidates < 1 ∧
    validatePDFRequest pdfReqBadTopK = none ∧
    classifyPDFCallsBackend pdfReqBadTopK = true ∧
    (classifyPDF pdfReqBadTopK (.success brSample)).success = true ∧
    (classifyPDF pdfReqBadTopK (.success brSample)).data =
      some (transformBackendResult brSample) := by
  refine ⟨by decide, ?_, ?_, ?_, ?_⟩ <;> rfl

/-- Claim C5 amended: a text classification request whose `topKCandidates`
lies outside [1,100] is rejected by `validateTextRequest` as a fatal
validation error — `classifyText` reports a failed response immediately, with
no partial result and no backend call; PDF classification requests are not
subject to this range check. -/
theorem text_topk_rejected (req : ClassifyTextRequest) (reply : BackendReply)
    (h : req.config.topKCandidates < 1 ∨ 100 < req.config.topKCandidates) :
    (validateTextRequest req).isSome = true ∧
    (classifyText req reply).success = false ∧
    (classifyText req reply).data = none ∧
    classifyTextCallsBackend req = false := by
  have hv : (validateTextRequest req).isSome = true := by
    unfold validateTextRequest
    split_ifs <;> rfl
  obtain ⟨e, he⟩ := Option.isSome_iff_exists.mp hv
  refine ⟨hv, ?_, ?_, ?_⟩ <;>
    simp [classifyText, classifyTextCallsBackend, he, catchResponse]

/-- Claim C5 amended, witness: a concrete text request with
`topKCandidates = 0` is rejected with a failed, data-free response and no
backend call. -/
theorem text_topk_rejected_witness :
    (validateTextRequest textReqBadTopK).isSome = true ∧
    (classifyText textReqBadTopK (.success brSample)).success = false ∧
    (classifyText textReqBadTopK (.success brSample)).data = none ∧
    classifyTextCallsBackend textReqBadTopK = false :=
  text_topk_rejected textReqBadTopK (.success brSample) (Or.inl (by decide))

/-- Claim C6: a text classification request whose text is empty or
whitespace-only fails validation immediately with 'Text content is required';
`classifyText` returns a failed response carrying no classification result
data, and the backend is never called. -/
theorem empty_text_rejected (req : ClassifyTextRequest) (reply : BackendReply)
    (h : jsTrim req.text = "") :
    validateTextRequest req = some ⟨"Text content is required", "text"⟩ ∧
    (classifyText req reply).success = false ∧
    (classifyText req reply).data = none ∧
    classifyTextCallsBackend req = false := by
  have hv : validateTextRequest req = some ⟨"Text content is required", "text"⟩ := by
    unfold validateTextRequest
    simp [h]
  refine ⟨hv, ?_, ?_, ?_⟩ <;>
    simp [classifyText, classifyTextCallsBackend, hv, catchResponse]

/-- Claim C6 witness: a whitespace-only text request is rejected with the
validation error, a failed data-free response, and no backend call. -/
theorem empty_text_rejected_witness :
    validateTextRequest textReqBlank = some ⟨"Text content is required", "text"⟩ ∧
    (classifyText textReqBlank (.success brSample)).success = false ∧
    (classifyText textReqBlank (.success brSample)).data = none ∧
    classifyTextCallsBackend textReqBlank = false :=
  empty_text_rejected textReqBlank (.success brSample) rfl

/-- A first concrete classification result (as produced for one call). -/
def resultA : ClassificationResult :=
  { predictedClass := ⟨"invoice", "Invoice", "an invoice"⟩
    confidence := 9 / 10
    similarityScore := 9 / 10
    rerankScore := none
    attributeScore := none
    alternatives := []
    attributeValidation := none
    processingTime := none }

/-- A second, different concrete classification result. -/
def resultB : ClassificationResult :=
  { resultA with predictedClass := ⟨"resume", "Resume", "a resume"⟩ }

/-- Claim C7 counterexample: after a first successful classification call
stores `resultA` and a second call stores `resultB`, the first call's result
is still held by the store — `resultHistory` is shared mutable state that
retains previous calls' `ClassificationResult`s, so results are not discarded
after being returned. -/
theorem store_retains_previous_result :
    (storeClassifySuccess resultB (storeClassifySuccess resultA initialStoreState)).resultHistory
      = [resultB, resultA] ∧
    resultA ∈ (storeClassifySuccess resultB
      (storeClassifySuccess resultA initialStoreState)).resultHistory ∧
    (storeClassifySuccess resultB
      (storeClassifySuccess resultA initialStoreState)).currentResult = some resultB := by
  refine ⟨rfl, ?_, rfl⟩
  show resultA ∈ [resultB, resultA]
  exact List.mem_cons_of_mem resultB (List.mem_cons_self resultA [])

/-- Claim C7 amended: each `classifyText`/`classifyPDF` service call builds
its `ClassificationResult` fresh from the backend reply, but the
classification store then retains it across calls: a successful store call
sets `currentResult` to the new result and keeps it in `resultHistory`
(capped at the 50 most recent) until `clearHistory` empties it. -/
theorem store_history_retention (r : ClassificationResult)
    (s : ClassificationStoreState) :
    (storeClassifySuccess r s).currentResult = some r ∧
    (storeClassifySuccess r s).resultHistory = (r :: s.resultHistory).take 50 ∧
    r ∈ (storeClassifySuccess r s).resultHistory ∧
    (storeClassifySuccess r s).resultHistory.length ≤ 50 ∧
    (clearHistory s).resultHistory = [] := by
  refine ⟨rfl, rfl, ?_, ?_, rfl⟩
  · show r ∈ (r :: s.resultHistory).take 50
    rw [List.take_succ_cons]
    exact List.mem_cons_self r _
  · show ((r :: s.resultHistory).take 50).length ≤ 50
    exact List.length_take_le 50 _

/-- Claim C8: the response transformation shared by `classifyText` and
`classifyPDF` reports `confidence = effective_score || similarity_score || 0`
with JavaScript falsy-`0` semantics: a present nonzero effective score wins;
an absent or zero effective score falls back to a present nonzero similarity
score; with both absent or zero the confidence is 0.  In particular a backend
result whose effective score is exactly 0 reports its similarity score. -/
theorem confidence_zero_fallback :
    (∀ (req : ClassifyTextRequest) (br : BackendResult), validateTextRequest req = none →
      (classifyText req (.success br)).data = some (transformBackendResult br)) ∧
    (∀ (req : ClassifyPDFRequest) (br : BackendResult), validatePDFRequest req = none →
      (classifyPDF req (.success br)).data = some (transformBackendResult br)) ∧
    (∀ (br : BackendResult) (e : ℚ), br.effective_score = some e → e ≠ 0 →
      (transformBackendResult br).confidence = e) ∧
    (∀ (br : BackendResult) (s : ℚ),
      (br.effective_score = none ∨ br.effective_score = some 0) →
      br.similarity_score = some s → s ≠ 0 →
      (transformBackendResult br).confidence = s) ∧
    (∀ br : BackendResult,
      (br.effective_score = none ∨ br.effective_score = some 0) →
      (br.similarity_score = none ∨ br.similarity_score = some 0) →
      (transformBackendResult br).confidence = 0) := by
  refine ⟨?_, ?_, ?_, ?_, ?_⟩
  · intro req br hreq
    simp [classifyText, hreq]
  · intro req br hreq
    simp [classifyPDF, hreq]
  · intro br e he hne
    simp [transformBackendResult, jsOrQ, he, hne]
  · intro br s he hs hne
    rcases he with he | he <;> simp [transformBackendResult, jsOrQ, he, hs, hne]
  · intro br he hs
    rcases he with he | he <;> rcases hs with hs | hs <;>
      simp [transformBackendResult, jsOrQ, he, hs]

/-- Claim C8 witness: for a backend result with `effective_score = 0` and
`similarity_score = 0.42`, a valid text request reports the transformed
result whose confidence is 0.42, the similarity score. -/
theorem confidence_zero_fallback_witness :
    (classifyText textReqValid (.success brSample)).data =
      some (transformBackendResult brSample) ∧
    (transformBackendResult brSample).confidence = 21 / 50 := by
  have h := confidence_zero_fallback
  exact ⟨h.1 textReqValid brSample rfl,
    h.2.2.2.1 brSample (21 / 50) (Or.inr rfl) rfl (by norm_num)⟩

/-- Claim C9: the options control clamps every slider value to
`max(1, min(20, v))`, which always lies in [1,20]; the stored configuration
therefore always passes the classification service's [1,100] range check and
can never exceed 20, even though the service itself accepts values up to 100
(a valid request with `topKCandidates = 100` passes `validateTextRequest`). -/
theorem topk_clamped (cfg : ClassificationConfig) (v : ℤ) :
    (handleTopKChange cfg v).topKCandidates = max 1 (min 20 v) ∧
    1 ≤ (handleTopKChange cfg v).topKCandidates ∧
    (handleTopKChange cfg v).topKCandidates ≤ 20 ∧
    ¬((handleTopKChange cfg v).topKCandidates < 1 ∨
        100 < (handleTopKChange cfg v).topKCandidates) ∧
    validateTextRequest
      ⟨"t", "d", ⟨false, none, false, 100⟩⟩ = none := by
  have h1 : (1 : ℤ) ≤ max 1 (min 20 v) := le_max_left 1 (min 20 v)
  have h20 : max 1 (min 20 v) ≤ 20 :=
    max_le (by norm_num) (min_le_left 20 v)
  refine ⟨rfl, h1, h20, ?_, rfl⟩
  push_neg
  exact ⟨h1, le_trans h20 (by norm_num)⟩

/-- Claim C10: `classifyPDF` rejects — with a failed, data-free response and
without issuing the backend call — any request whose file is missing, empty,
larger than 50MB, or not named `*.pdf` (case-insensitively). -/
theorem pdf_file_rejected (req : ClassifyPDFRequest) (reply : BackendReply)
    (h : req.file = none ∨ ∃ f, req.file = some f ∧
      (f.size = 0 ∨ 50 * 1024 * 1024 < f.size ∨
        jsEndsWith (jsToLower f.name) ".pdf" = false)) :
    (validatePDFFile req.file).isSome = true ∧
    (classifyPDF req reply).success = false ∧
    (classifyPDF req reply).data = none ∧
    classifyPDFCallsBackend req = false := by
  have hv : (validatePDFFile req.file).isSome = true := by
    rcases h with h | ⟨f, hf, hcase⟩
    · rw [h]; rfl
    · rw [hf]
      by_cases hpdf : jsEndsWith (jsToLower f.name) ".pdf" = true
      · by_cases hbig : 50 * 1024 * 1024 < f.size
        · simp [validatePDFFile, hpdf, hbig]
        · have hzero : f.size = 0 := by
            rcases hcase with h0 | h0 | h0
            · exact h0
            · exact absurd h0 hbig
            · rw [h0] at hpdf
              exact absurd hpdf (by simp)
          simp [validatePDFFile, hpdf, hbig, hzero]
      · simp [validatePDFFile, hpdf]
  obtain ⟨e, he⟩ := Option.isSome_iff_exists.mp hv
  have hr : validatePDFRequest req = some e := by
    unfold validatePDFRequest
    rw [he]
  refine ⟨hv, ?_, ?_, ?_⟩ <;>
    simp [classifyPDF, classifyPDFCallsBackend, hr, catchResponse]

/-- Claim C10 witness: a PDF request with no file attached yields a failed,
data-free response and no backend call. -/
theorem pdf_file_rejected_witness :
    (validatePDFFile pdfReqNoFile.file).isSome = true ∧
    (classifyPDF pdfReqNoFile (.success brSample)).success = false ∧
    (classifyPDF pdfReqNoFile (.success brSample)).data = none ∧
    classifyPDFCallsBackend pdfReqNoFile = false :=
  pdf_file_rejected pdfReqNoFile (.success brSample) (Or.inl rfl)

end MedScribe

